import Mathlib

/-!
Verification of the OpenHeadUnit CarPlay dongle driver layer.

The definitions below are a shallow embedding of the driver code:

* `DongleDriver` session state, `close`, `send`, `readLoop`, `start` and
  `initialise` are translated from the `DongleDriver` class in `main.js`
  (the DongleDriver.js document).
* Message codec functions are translated from
  `src/carplay/messages/readable.js`, `src/carplay/messages/sendable.js`
  and the `clamp` helper of `messages/utils.js`.

Asynchronous USB transfers are modelled by passing the outcome of each
transfer as an explicit input (an element of a small outcome type), so the
driver functions become pure state transformers over those inputs.
Node.js `Buffer`s are modelled as `List Nat` of byte values; IEEE-754
float fields that the driver never interprets numerically are kept as
their raw 4-byte little-endian bit patterns.
-/

namespace OpenHeadUnit

/-! ## USB device model (the WebUSB device-handle contract) -/

/-- Direction of a USB endpoint, `'in'` or `'out'` in WebUSB. -/
inductive EPDirection where
  | dirIn
  | dirOut
deriving DecidableEq, Repr

/-- A USB endpoint descriptor as used by `DongleDriver.initialise`. -/
structure USBEndpoint where
  direction : EPDirection
  endpointNumber : Nat
deriving DecidableEq, Repr

/-- A USB interface: `interfaceNumber` plus its alternate's endpoints. -/
structure USBInterface where
  interfaceNumber : Nat
  endpoints : List USBEndpoint
deriving DecidableEq, Repr

/-- A USB configuration descriptor: its interface list. -/
structure USBConfiguration where
  interfaces : List USBInterface
deriving DecidableEq, Repr

/-- A WebUSB device handle: whether it is open, and its configuration
descriptor (after `selectConfiguration`), `none` when absent. -/
structure USBDevice where
  opened : Bool
  configuration : Option USBConfiguration
deriving DecidableEq, Repr

/-! ## DongleDriver session state (main.js) -/

/-- `MAX_ERROR_COUNT = 5` in main.js. -/
def MAX_ERROR_COUNT : Nat := 5

/-- The mutable fields of a `DongleDriver` instance:
`_device`, `_inEP`, `_outEP` (kept as endpoint numbers),
`_heartbeatInterval` (the period of the scheduled interval, `none` when no
timer is scheduled) and `errorCount`. -/
structure DriverState where
  device : Option USBDevice
  inEP : Option Nat
  outEP : Option Nat
  heartbeatInterval : Option Nat
  errorCount : Nat
deriving DecidableEq, Repr

/-- The state built by the `DongleDriver` constructor. -/
def DongleDriver.initialState : DriverState :=
  { device := none, inEP := none, outEP := none,
    heartbeatInterval := none, errorCount := 0 }

/-- The truth value of `this._device?.opened`. -/
def deviceOpened (s : DriverState) : Bool :=
  match s.device with
  | some d => d.opened
  | none => false

/-- `close()` from main.js: if `_device` is null it returns immediately;
otherwise it clears the heartbeat interval, closes the device handle
(WebUSB `close()` resolves even on an unopened device) and nulls
`_device`, `_inEP` and `_outEP`.  `errorCount` is not touched. -/
def close (s : DriverState) : DriverState :=
  if s.device.isNone then s
  else
    { device := none, inEP := none, outEP := none,
      heartbeatInterval := none, errorCount := s.errorCount }

/-! ## send (main.js) -/

/-- Outcome of the body of `send()` once the open-device guard has passed:
the `transferOut` promise resolved with status `'ok'`, resolved with some
other status, rejected (the exception is caught), or `message.serialise()`
itself threw (also caught by the same `try`). -/
inductive SendOutcome where
  | ok
  | badStatus
  | transferThrew
  | serialiseThrew
deriving DecidableEq, Repr

/-- What a call to `send()` did: the value it returned
(`some true` / `some false` / `none` for JS `true` / `false` / `null`)
and whether a bulk OUT transfer was issued at all. -/
structure SendResult where
  ret : Option Bool
  transferAttempted : Bool
deriving DecidableEq, Repr

/-- `send(message)` from main.js: returns `null` without touching the
device unless `this._device?.opened`; otherwise returns `true` exactly
when the transfer reported status `'ok'`, and `false` when the transfer
completed with another status or anything in the `try` block threw. -/
def send (s : DriverState) (outcome : SendOutcome) : SendResult :=
  if deviceOpened s then
    match outcome with
    | SendOutcome.ok => { ret := some true, transferAttempted := true }
    | SendOutcome.badStatus => { ret := some false, transferAttempted := true }
    | SendOutcome.transferThrew => { ret := some false, transferAttempted := true }
    | SendOutcome.serialiseThrew => { ret := some false, transferAttempted := false }
  else { ret := none, transferAttempted := false }

/-! ## readLoop (main.js) -/

/-- How one iteration of the `readLoop` `try` block plays out, as seen
from the driver: the header `transferIn` yielded no data (the thrown
`HeaderBuildError` is caught), `MessageHeader.fromBuffer` threw (caught),
the header promised a body (`header.length > 0`) but the body `transferIn`
yielded no data, `header.toMessage` threw (caught), or a message was
parsed (`emitted = false` when `toMessage` returned null). -/
inductive ReadEvent where
  | headerNoData
  | headerParseError
  | bodyMissing
  | decodeThrew
  | message (emitted : Bool)
deriving DecidableEq, Repr

/-- Events a `readLoop` run emits on the driver's `EventEmitter`. -/
inductive DriverEvent where
  | failure
  | message
deriving DecidableEq, Repr

/-- `readLoop()` from main.js, as a state transformer over the list of
per-iteration transfer outcomes.  Each loop iteration first checks
`this._device?.opened` (exiting normally when false), then the
`errorCount >= MAX_ERROR_COUNT` circuit breaker (which calls `close()`,
emits `'failure'` and returns), and only then performs the iteration's
transfers, consuming one `ReadEvent`.  Caught per-iteration exceptions
increment `errorCount`; the missing-body path logs and returns without
touching any state.  An exhausted event list stands for the surrounding
program ending the run (e.g. the device being closed under the loop). -/
def readLoop (s : DriverState) : List ReadEvent → DriverState × List DriverEvent
  | [] =>
    if ¬ deviceOpened s then (s, [])
    else if MAX_ERROR_COUNT ≤ s.errorCount then (close s, [DriverEvent.failure])
    else (s, [])
  | e :: rest =>
    if ¬ deviceOpened s then (s, [])
    else if MAX_ERROR_COUNT ≤ s.errorCount then (close s, [DriverEvent.failure])
    else
      match e with
      | ReadEvent.headerNoData =>
        readLoop { s with errorCount := s.errorCount + 1 } rest
      | ReadEvent.headerParseError =>
        readLoop { s with errorCount := s.errorCount + 1 } rest
      | ReadEvent.bodyMissing => (s, [])
      | ReadEvent.decodeThrew =>
        readLoop { s with errorCount := s.errorCount + 1 } rest
      | ReadEvent.message emitted =>
        let r := readLoop s rest
        (r.1, (if emitted then [DriverEvent.message] else []) ++ r.2)

/-! ## start (main.js) -/

/-- The slice of the configuration object `start(config)` reads, mirroring
`DEFAULT_CONFIG` in main.js.  `androidWorkMode` is absent (`undefined`,
hence falsy) in `DEFAULT_CONFIG`; `none`/`some false` are falsy, and only
`some true` makes `if (config.androidWorkMode)` take the push branch. -/
structure DongleConfig where
  width : Nat
  height : Nat
  fps : Nat
  dpi : Nat
  format : Nat
  iBoxVersion : Nat
  phoneWorkMode : Nat
  packetMax : Nat
  boxName : String
  nightMode : Bool
  hand : Nat
  mediaDelay : Nat
  audioTransferMode : Bool
  wifiType : String
  micType : String
  androidWorkMode : Option Bool
deriving DecidableEq, Repr

/-- `DEFAULT_CONFIG` from main.js (the protocol-relevant fields). -/
def DEFAULT_CONFIG : DongleConfig :=
  { width := 800, height := 640, fps := 20, dpi := 160, format := 5,
    iBoxVersion := 2, phoneWorkMode := 2, packetMax := 49152,
    boxName := "nodePlay", nightMode := false, hand := 0,
    mediaDelay := 300, audioTransferMode := false,
    wifiType := "5ghz", micType := "os", androidWorkMode := none }

/-- One outbound message as constructed by `start()`, identified by the
`sendable.js` constructor and its arguments.  File addresses are the
`FileAddress` path strings of sendable.js. -/
inductive OutMsg where
  | sendNumber (value : Nat) (file : String)
  | sendOpen (config : DongleConfig)
  | sendString (value : String) (file : String)
  | sendBoxSettings (config : DongleConfig)
  | sendCommand (command : String)
  | heartBeat
deriving DecidableEq, Repr

/-- `SendBoolean` from sendable.js: `SendNumber(Number(content), file)`. -/
def sendBoolean (b : Bool) (file : String) : OutMsg :=
  OutMsg.sendNumber (if b then 1 else 0) file

/-- The `initMessages` burst built by `start(config)` in main.js,
in construction order (the sends are issued concurrently via
`Promise.all`). -/
def initMessages (config : DongleConfig) : List OutMsg :=
  [OutMsg.sendNumber config.dpi "/tmp/screen_dpi",
   OutMsg.sendOpen config,
   sendBoolean config.nightMode "/tmp/night_mode",
   OutMsg.sendNumber config.hand "/tmp/hand_drive_mode",
   sendBoolean true "/tmp/charge_mode",
   OutMsg.sendString config.boxName "/etc/box_name",
   OutMsg.sendBoxSettings config,
   OutMsg.sendCommand "wifiEnable",
   OutMsg.sendCommand (if config.wifiType = "5ghz" then "wifi5g" else "wifi24g"),
   OutMsg.sendCommand (if config.micType = "box" then "boxMic" else "mic"),
   OutMsg.sendCommand
     (if config.audioTransferMode then "audioTransferOn" else "audioTransferOff")]
  ++ (match config.androidWorkMode with
      | some true => [sendBoolean true "/etc/android_work_mode"]
      | _ => [])

/-- The observable schedule `start(config)` sets up after the
`Promise.all` on the burst resolves (taken as time 0 ms): the burst
messages, the `setTimeout` send of `wifiConnect` (delay, message), the
delay after which `this.readLoop()` is invoked, and the `setInterval`
heartbeat period.  In main.js `readLoop()` is called synchronously right
after the `setTimeout` is registered, i.e. at delay 0, before the delayed
`wifiConnect` send fires at 1000 ms. -/
structure StartTrace where
  burst : List OutMsg
  delayedSend : Nat × OutMsg
  readLoopDelay : Nat
  heartbeatPeriod : Nat
deriving DecidableEq, Repr

/-- Result of `start(config)`: the thrown `DriverStateError` when no
device is set, the silent early return when the device is not opened, or
the new driver state together with the schedule it set up. -/
inductive StartOutcome where
  | errorNoDevice
  | skipped
  | started (s : DriverState) (trace : StartTrace)
deriving DecidableEq, Repr

/-- `start(config)` from main.js: throws `DriverStateError` when
`_device` is null, returns silently when the device is not opened, and
otherwise resets `errorCount` to 0, builds the `initMessages` burst,
sends it concurrently, registers the 1000 ms `wifiConnect` timeout,
invokes `readLoop()` immediately, and schedules the 2000 ms heartbeat
interval. -/
def start (s : DriverState) (config : DongleConfig) : StartOutcome :=
  match s.device with
  | none => StartOutcome.errorNoDevice
  | some d =>
    if ¬ d.opened then StartOutcome.skipped
    else
      StartOutcome.started
        { s with errorCount := 0, heartbeatInterval := some 2000 }
        { burst := initMessages config,
          delayedSend := (1000, OutMsg.sendCommand "wifiConnect"),
          readLoopDelay := 0,
          heartbeatPeriod := 2000 }

/-! ## initialise (main.js) -/

/-- The exceptions `initialise(device)` can raise: the three explicit
`DriverStateError`s, the two endpoint `DriverStateError`s, and the JS
`TypeError` that destructuring `configuration.interfaces[0]` raises when
the interface list is empty. -/
inductive InitError where
  | deviceNotOpened
  | noConfiguration
  | noInterfaceTypeError
  | noInEndpoint
  | noOutEndpoint
deriving DecidableEq, Repr

/-- Which of the `initialise` failures are `DriverStateError`s (the class
the spec calls `DeviceStateError`). -/
def InitError.isDriverStateError : InitError → Bool
  | InitError.noInterfaceTypeError => false
  | _ => true

/-- `initialise(device)` from main.js: a no-op when `_device` is already
set; otherwise stores the device, validates it (open, has a configuration
after `selectConfiguration`, first interface has an IN endpoint — checked
before OUT — and an OUT endpoint) and stores the endpoint numbers.  On
any thrown error the `catch` block calls `this.close()` before
re-throwing, so the error branches return the closed state.  Returns the
new state and the raised error, if any. -/
def initialise (s : DriverState) (device : USBDevice) :
    DriverState × Option InitError :=
  if s.device.isSome then (s, none)
  else
    let s1 : DriverState := { s with device := some device }
    if device.opened = false then (close s1, some InitError.deviceNotOpened)
    else
      match device.configuration with
      | none => (close s1, some InitError.noConfiguration)
      | some cfg =>
        match cfg.interfaces.head? with
        | none => (close s1, some InitError.noInterfaceTypeError)
        | some intf =>
          match intf.endpoints.find? (fun e => e.direction = EPDirection.dirIn) with
          | none => (close s1, some InitError.noInEndpoint)
          | some inEndpoint =>
            match intf.endpoints.find? (fun e => e.direction = EPDirection.dirOut) with
            | none => (close s1, some InitError.noOutEndpoint)
            | some outEndpoint =>
              ({ s1 with inEP := some inEndpoint.endpointNumber,
                         outEP := some outEndpoint.endpointNumber }, none)

/-! ## Byte-level helpers (Node.js Buffer semantics) -/

/-- Node `Buffer` read/write errors: `ERR_OUT_OF_RANGE` from the bounds
check of `readUInt32LE`/`readInt8`, and the `RangeError` the `Int16Array`
constructor throws on an odd byte count. -/
inductive NodeError where
  | outOfRange
deriving DecidableEq, Repr

/-- Little-endian `writeUInt32LE`: the four bytes of `v % 2^32`. -/
def uint32le (v : Nat) : List Nat :=
  [v % 256, v / 256 % 256, v / 65536 % 256, v / 16777216 % 256]

/-- The unsigned 32-bit little-endian value of `data` at byte `off`
(bytes taken mod 256, missing bytes as 0; callers guard the bounds). -/
def le32At (data : List Nat) (off : Nat) : Nat :=
  data.getD off 0 % 256 + 256 * (data.getD (off + 1) 0 % 256)
    + 65536 * (data.getD (off + 2) 0 % 256)
    + 16777216 * (data.getD (off + 3) 0 % 256)

/-- Node `buffer.readUInt32LE(off)`: bounds-checked little-endian read,
throwing `ERR_OUT_OF_RANGE` when fewer than 4 bytes remain. -/
def readUInt32LE (data : List Nat) (off : Nat) : Except NodeError Nat :=
  if off + 4 ≤ data.length then Except.ok (le32At data off)
  else Except.error NodeError.outOfRange

/-- The signed value of the byte of `data` at `off` (two's complement). -/
def int8At (data : List Nat) (off : Nat) : Int :=
  if data.getD off 0 % 256 < 128 then (data.getD off 0 % 256 : Int)
  else (data.getD off 0 % 256 : Int) - 256

/-- Node `buffer.readInt8(off)`: bounds-checked signed byte read. -/
def readInt8 (data : List Nat) (off : Nat) : Except NodeError Int :=
  if off + 1 ≤ data.length then Except.ok (int8At data off)
  else Except.error NodeError.outOfRange

/-- The `Int16Array` view of a byte list: consecutive little-endian
signed 16-bit values (a trailing odd byte never occurs where this is
used, because the constructor's length check runs first). -/
def int16PairsLE : List Nat → List Int
  | lo :: hi :: rest =>
    (if lo % 256 + 256 * (hi % 256) < 32768 then
       (lo % 256 + 256 * (hi % 256) : Int)
     else (lo % 256 + 256 * (hi % 256) : Int) - 65536) :: int16PairsLE rest
  | _ => []

/-! ## Plugged (readable.js) -/

/-- The fields the `Plugged` message constructor sets. -/
structure PluggedMsg where
  phoneType : Nat
  wifi : Option Nat
deriving DecidableEq, Repr

/-- The `Plugged` constructor from readable.js: when the body is exactly
8 bytes it reads `phoneType` at 0 and `wifi` at 4; on every other length
it reads only `phoneType` at 0 (so bodies shorter than 4 bytes make
`readUInt32LE` throw `ERR_OUT_OF_RANGE`). -/
def pluggedDecode (data : List Nat) : Except NodeError PluggedMsg :=
  if data.length = 8 then do
    let pt ← readUInt32LE data 0
    let w ← readUInt32LE data 4
    Except.ok { phoneType := pt, wifi := some w }
  else do
    let pt ← readUInt32LE data 0
    Except.ok { phoneType := pt, wifi := none }

/-! ## AudioData (readable.js) -/

/-- The fields the `AudioData` message constructor sets.  `volumeBits`
and `volumeDurationBits` keep the raw little-endian bit patterns of the
`readFloatLE` fields; `pcm` is the `Int16Array` view of the bytes from
offset 12. -/
structure AudioDataMsg where
  decodeType : Nat
  volumeBits : Nat
  audioType : Nat
  command : Option Int
  volumeDurationBits : Option Nat
  pcm : Option (List Int)
deriving DecidableEq, Repr

/-- The `AudioData` constructor from readable.js: reads `decodeType`,
`volume` and `audioType` from the first 12 bytes (throwing out of range
when the body is shorter), then dispatches on `amount = length - 12`:
1 byte gives `command` (`readInt8`), 4 bytes give `volumeDuration`,
anything else becomes `new Int16Array(data.buffer, 12)`, which throws a
`RangeError` when the remaining byte count is odd.  (In the read loop the
body buffer is created by `Buffer.from(arrayBuffer)`, so `data.buffer`
ends exactly where the body does.) -/
def audioDataDecode (data : List Nat) : Except NodeError AudioDataMsg := do
  let dt ← readUInt32LE data 0
  let volBits ← readUInt32LE data 4
  let aty ← readUInt32LE data 8
  if data.length - 12 = 1 then do
    let c ← readInt8 data 12
    Except.ok { decodeType := dt, volumeBits := volBits, audioType := aty,
                command := some c, volumeDurationBits := none, pcm := none }
  else if data.length - 12 = 4 then do
    let vd ← readUInt32LE data 12
    Except.ok { decodeType := dt, volumeBits := volBits, audioType := aty,
                command := none, volumeDurationBits := some vd, pcm := none }
  else
    if (data.length - 12) % 2 = 0 then
      Except.ok { decodeType := dt, volumeBits := volBits, audioType := aty,
                  command := none, volumeDurationBits := none,
                  pcm := some (int16PairsLE (data.drop 12)) }
    else Except.error NodeError.outOfRange

/-! ## SendTouch (sendable.js) and clamp (utils.js) -/

/-- `clamp` from messages/utils.js: `Math.max(min, Math.min(number, max))`. -/
def clamp (number mn mx : ℚ) : ℚ := max mn (min number mx)

/-- The fixed-point coordinate `SendTouch.getPayload` computes:
`clamp(10000 * v, 0, 10000)`, then the truncation `writeUInt32LE`
performs on a fractional value (Node range-checks the value against
[0, 2^32) and then stores it with bitwise operations, which truncate
toward zero; the clamped value is nonnegative, so this is the floor). -/
def touchFixedPoint (v : ℚ) : Int := Int.floor (clamp (10000 * v) 0 10000)

/-- `SendTouch.getPayload` from sendable.js: four little-endian uint32
words — action, clamped x, clamped y, and a zero flags word. -/
def sendTouchPayload (x y : ℚ) (action : Nat) : List Nat :=
  uint32le action ++ uint32le (touchFixedPoint x).toNat
    ++ uint32le (touchFixedPoint y).toNat ++ uint32le 0

/-! ## SendFile / SendString (sendable.js) -/

/-- `Buffer.from(s, 'ascii')`: each UTF-16 code unit masked to a byte. -/
def asciiBytes (s : String) : List Nat :=
  s.data.map (fun c => c.toNat % 256)

/-- `SendFile.getFileName`: the name with a trailing NUL byte. -/
def getFileName (name : String) : List Nat := asciiBytes name ++ [0]

/-- `SendFile.getPayload`: name length (uint32 LE), NUL-terminated name,
content length (uint32 LE), content bytes. -/
def sendFilePayload (content : List Nat) (fileName : String) : List Nat :=
  uint32le (getFileName fileName).length ++ getFileName fileName
    ++ uint32le content.length ++ content

/-- What constructing and serialising a `SendString(content, file)`
produces: the `SendFile` payload over `Buffer.from(content, 'ascii')`,
plus whether the constructor logged `'string too long'`
(`content.length > 16`).  The constructor only logs; it never truncates
or rejects. -/
structure SendStringMsg where
  payload : List Nat
  loggedTooLong : Bool
deriving DecidableEq, Repr

/-- `SendString` from sendable.js composed with `SendFile.getPayload`. -/
def sendStringMsg (content file : String) : SendStringMsg :=
  { payload := sendFilePayload (asciiBytes content) file,
    loggedTooLong := 16 < content.length }

/-! ## Concrete fixtures used to instantiate the theorems -/

/-- The state `close()` leaves behind when a device was attached:
everything released, only `errorCount` surviving. -/
def cleanedState (s : DriverState) : DriverState :=
  { device := none, inEP := none, outEP := none,
    heartbeatInterval := none, errorCount := s.errorCount }

/-- The schedule of a successful `start`, when there is one. -/
def startTraceOf : StartOutcome → Option StartTrace
  | StartOutcome.started _ trace => some trace
  | _ => none

/-- An opened device handle (configuration irrelevant once initialised). -/
def openDemoDevice : USBDevice := { opened := true, configuration := none }

/-- A session whose error counter has hit the circuit-breaker ceiling. -/
def breakerDemoState : DriverState :=
  { device := some openDemoDevice, inEP := some 1, outEP := some 2,
    heartbeatInterval := some 2000, errorCount := 5 }

/-- A healthy streaming session. -/
def runningDemoState : DriverState :=
  { device := some openDemoDevice, inEP := some 1, outEP := some 2,
    heartbeatInterval := some 2000, errorCount := 0 }

/-- The schedule `start` produces for `DEFAULT_CONFIG`. -/
def startDemoTrace : StartTrace :=
  { burst := initMessages DEFAULT_CONFIG,
    delayedSend := (1000, OutMsg.sendCommand "wifiConnect"),
    readLoopDelay := 0, heartbeatPeriod := 2000 }

/-- An opened device whose single interface has no endpoints at all. -/
def noEndpointDevice : USBDevice :=
  { opened := true,
    configuration := some { interfaces := [{ interfaceNumber := 0, endpoints := [] }] } }

/-- An opened device whose single interface has only an OUT endpoint. -/
def outOnlyDevice : USBDevice :=
  { opened := true,
    configuration := some
      { interfaces :=
          [{ interfaceNumber := 0,
             endpoints := [{ direction := EPDirection.dirOut, endpointNumber := 2 }] }] } }

/-! ## Theorems -/

/-- A `readLoop` run emits the `failure` event at most once, whatever the
state and the transfer outcomes. -/
theorem readLoop_failure_count_le_one (s : DriverState) (events : List ReadEvent) :
    ((readLoop s events).2.count DriverEvent.failure) ≤ 1 := by
  induction events generalizing s with
  | nil =>
    simp only [readLoop]
    split
    · simp
    · split
      · simp
      · simp
  | cons e rest ih =>
    simp only [readLoop]
    split
    · simp
    · split
      · simp
      · cases e with
        | headerNoData => exact ih _
        | headerParseError => exact ih _
        | bodyMissing => simp
        | decodeThrew => exact ih _
        | message emitted =>
          simp only [List.count_append]
          have h0 : ((if emitted then [DriverEvent.message] else []).count
              DriverEvent.failure) = 0 := by
            cases emitted <;> simp [List.count_cons]
          rw [h0]
          simpa using ih s

/-- If the device is open, `deviceOpened` forces `_device` to be set. -/
theorem device_isSome_of_opened (s : DriverState) (h : deviceOpened s = true) :
    s.device.isNone = false := by
  cases hd : s.device with
  | none => rw [deviceOpened, hd] at h; cases h
  | some d => simp [hd]

/-- C1: once the receive-loop error counter has reached the ceiling of 5,
the read loop force-closes the session, emits exactly one `failure` event
and stops (whatever transfers would have followed), every later `send`
returns `null`, and no run of the loop ever emits `failure` twice. -/
theorem readLoop_circuit_breaker (s : DriverState) (events : List ReadEvent)
    (hopen : deviceOpened s = true) (hcnt : MAX_ERROR_COUNT ≤ s.errorCount) :
    readLoop s events = (close s, [DriverEvent.failure]) ∧
    (close s).device = none ∧
    (∀ outcome, (send (close s) outcome).ret = none) ∧
    (∀ s' evs, ((readLoop s' evs).2.count DriverEvent.failure) ≤ 1) := by
  have hdev := device_isSome_of_opened s hopen
  refine ⟨?_, ?_, ?_, fun s' evs => readLoop_failure_count_le_one s' evs⟩
  · cases events with
    | nil => simp [readLoop, hopen, hcnt]
    | cons e rest => simp [readLoop, hopen, hcnt]
  · simp [close, hdev]
  · intro outcome
    simp [send, deviceOpened, close, hdev]

/-- Witness for C1 at a concrete saturated session. -/
theorem readLoop_circuit_breaker_witness :
    readLoop breakerDemoState [ReadEvent.message true] =
      (close breakerDemoState, [DriverEvent.failure]) ∧
    (close breakerDemoState).device = none ∧
    (∀ outcome, (send (close breakerDemoState) outcome).ret = none) ∧
    (∀ s' evs, ((readLoop s' evs).2.count DriverEvent.failure) ≤ 1) :=
  readLoop_circuit_breaker breakerDemoState [ReadEvent.message true]
    (by decide) (by decide)

/-- C2: `send` returns exactly `some true` on an ok transfer, `some false`
when the transfer reported a non-ok status or threw (the exception is
swallowed — `send` is a total function), and `none` exactly when the
device is not open, in which case no transfer is attempted. -/
theorem send_tri_state (s : DriverState) (outcome : SendOutcome) :
    ((send s outcome).ret = some true ↔
      deviceOpened s = true ∧ outcome = SendOutcome.ok) ∧
    ((send s outcome).ret = some false ↔
      deviceOpened s = true ∧ outcome ≠ SendOutcome.ok) ∧
    ((send s outcome).ret = none ↔ deviceOpened s = false) ∧
    (deviceOpened s = false → (send s outcome).transferAttempted = false) := by
  cases hd : deviceOpened s <;> cases outcome <;> simp [send, hd]

/-- Witness for C2 at a session with no device attached. -/
theorem send_tri_state_witness :
    ((send DongleDriver.initialState SendOutcome.ok).ret = some true ↔
      deviceOpened DongleDriver.initialState = true ∧
        SendOutcome.ok = SendOutcome.ok) ∧
    ((send DongleDriver.initialState SendOutcome.ok).ret = some false ↔
      deviceOpened DongleDriver.initialState = true ∧
        SendOutcome.ok ≠ SendOutcome.ok) ∧
    ((send DongleDriver.initialState SendOutcome.ok).ret = none ↔
      deviceOpened DongleDriver.initialState = false) ∧
    (deviceOpened DongleDriver.initialState = false →
      (send DongleDriver.initialState SendOutcome.ok).transferAttempted = false) :=
  send_tri_state DongleDriver.initialState SendOutcome.ok

/-- C4: when a parsed header promises a body but the body transfer yields
no data, the read loop returns with the session state — in particular the
error counter — unchanged, and emits nothing (no `failure`). -/
theorem readLoop_body_missing (s : DriverState) (rest : List ReadEvent)
    (hopen : deviceOpened s = true) (hcnt : s.errorCount < MAX_ERROR_COUNT) :
    readLoop s (ReadEvent.bodyMissing :: rest) = (s, []) ∧
    (readLoop s (ReadEvent.bodyMissing :: rest)).1.errorCount = s.errorCount ∧
    DriverEvent.failure ∉ (readLoop s (ReadEvent.bodyMissing :: rest)).2 := by
  have h : readLoop s (ReadEvent.bodyMissing :: rest) = (s, []) := by
    simp [readLoop, hopen, Nat.not_le.mpr hcnt]
  exact ⟨h, by rw [h], by rw [h]; simp⟩

/-- Witness for C4: a healthy session hitting the missing-body path with
further traffic pending. -/
theorem readLoop_body_missing_witness :
    readLoop runningDemoState (ReadEvent.bodyMissing :: [ReadEvent.message true]) =
      (runningDemoState, []) ∧
    (readLoop runningDemoState
      (ReadEvent.bodyMissing :: [ReadEvent.message true])).1.errorCount =
      runningDemoState.errorCount ∧
    DriverEvent.failure ∉ (readLoop runningDemoState
      (ReadEvent.bodyMissing :: [ReadEvent.message true])).2 :=
  readLoop_body_missing runningDemoState [ReadEvent.message true]
    (by decide) (by decide)

/-- C9: `close` is a total function on every session state (it never
raises), is idempotent, releases the device, endpoint and heartbeat
references whenever a device was attached, and is a no-op on a session
that was never initialised. -/
theorem close_idempotent (s : DriverState) (hs : s.device ≠ none) :
    close (close s) = close s ∧
    close s = cleanedState s ∧
    (close s).device = none ∧ (close s).inEP = none ∧ (close s).outEP = none ∧
    (close s).heartbeatInterval = none ∧
    (∀ t : DriverState, close (close t) = close t) ∧
    close DongleDriver.initialState = DongleDriver.initialState := by
  have hsome : s.device.isNone = false := by
    cases hd : s.device with
    | none => exact absurd hd hs
    | some d => simp [hd]
  have hidem : ∀ t : DriverState, close (close t) = close t := by
    intro t
    by_cases ht : t.device.isNone = true
    · simp [close, ht]
    · simp only [close, ht, if_false, Bool.false_eq_true]
      simp
  refine ⟨hidem s, ?_, ?_, ?_, ?_, ?_, hidem, by decide⟩ <;>
    simp [close, hsome, cleanedState]

/-- Witness for C9 at a live session. -/
theorem close_idempotent_witness :
    close (close runningDemoState) = close runningDemoState ∧
    close runningDemoState = cleanedState runningDemoState ∧
    (close runningDemoState).device = none ∧
    (close runningDemoState).inEP = none ∧
    (close runningDemoState).outEP = none ∧
    (close runningDemoState).heartbeatInterval = none ∧
    (∀ t : DriverState, close (close t) = close t) ∧
    close DongleDriver.initialState = DongleDriver.initialState :=
  close_idempotent runningDemoState (by decide)

/-- C3 counterexample: on a live session with the default configuration,
`start` registers the `wifiConnect` send for 1000 ms later but invokes
`readLoop()` (and schedules the heartbeat) immediately, i.e. at delay 0 —
strictly before the network-connect command is sent, contradicting the
claim that the read loop begins only after that command. -/
theorem start_readLoop_before_connect :
    startTraceOf (start
      { device := some openDemoDevice, inEP := some 1, outEP := some 2,
        heartbeatInterval := none, errorCount := 3 } DEFAULT_CONFIG) =
      some startDemoTrace ∧
    startDemoTrace.delayedSend.1 = 1000 ∧
    startDemoTrace.readLoopDelay = 0 ∧
    startDemoTrace.readLoopDelay < startDemoTrace.delayedSend.1 := by
  refine ⟨?_, by decide, by decide, by decide⟩
  rfl

/-- C3 (amended): on a session whose device is set and open, `start`
resets the error counter to zero, issues the configuration burst (DPI,
session geometry, night mode, drive-hand, charge-mode enable, box name,
box settings, Wi-Fi enable, Wi-Fi band, mic source, audio-transfer mode),
schedules a single `wifiConnect` command for 1000 ms later, and — without
waiting for that command — immediately begins the read loop and schedules
the recurring 2000 ms heartbeat, which runs until `close()` clears it. -/
theorem start_behaviour (s : DriverState) (d : USBDevice) (config : DongleConfig)
    (hdev : s.device = some d) (hopen : d.opened = true) :
    start s config =
      StartOutcome.started
        { s with errorCount := 0, heartbeatInterval := some 2000 }
        { burst := initMessages config,
          delayedSend := (1000, OutMsg.sendCommand "wifiConnect"),
          readLoopDelay := 0, heartbeatPeriod := 2000 } ∧
    (close { s with errorCount := 0, heartbeatInterval := some 2000
             }).heartbeatInterval = none := by
  constructor
  · simp [start, hdev, hopen]
  · simp [close, hdev]

/-- Witness for C3 (amended) at a concrete live session. -/
theorem start_behaviour_witness :
    start runningDemoState DEFAULT_CONFIG =
      StartOutcome.started
        { runningDemoState with errorCount := 0, heartbeatInterval := some 2000 }
        { burst := initMessages DEFAULT_CONFIG,
          delayedSend := (1000, OutMsg.sendCommand "wifiConnect"),
          readLoopDelay := 0, heartbeatPeriod := 2000 } ∧
    (close { runningDemoState with
        errorCount := 0, heartbeatInterval := some 2000 }).heartbeatInterval = none :=
  start_behaviour runningDemoState openDemoDevice DEFAULT_CONFIG rfl rfl

/-- C5 counterexample: a 5-byte Plugged body — neither 4 nor 8 bytes —
decodes successfully with `wifi` absent instead of failing with a decode
error, contradicting the claim that every other length fails. -/
theorem plugged_extra_length_accepted :
    ([1, 0, 0, 0, 7] : List Nat).length ≠ 4 ∧
    ([1, 0, 0, 0, 7] : List Nat).length ≠ 8 ∧
    pluggedDecode [1, 0, 0, 0, 7] =
      Except.ok { phoneType := 1, wifi := none } := by
  exact ⟨by decide, by decide, rfl⟩

/-- C5 (amended): a Plugged body of exactly 8 bytes yields both
`phoneType` and a populated `wifi`; any other length of at least 4 bytes
yields `phoneType` with `wifi` absent; only bodies shorter than 4 bytes
fail, and then with the `readUInt32LE` out-of-range error rather than a
structured decode error. -/
theorem pluggedDecode_behaviour (data : List Nat) :
    pluggedDecode data =
      (if data.length = 8 then
        Except.ok { phoneType := le32At data 0, wifi := some (le32At data 4) }
      else if 4 ≤ data.length then
        Except.ok { phoneType := le32At data 0, wifi := none }
      else Except.error NodeError.outOfRange) := by
  by_cases h8 : data.length = 8
  · simp [pluggedDecode, readUInt32LE, h8]; rfl
  · by_cases h4 : 4 ≤ data.length
    · simp [pluggedDecode, readUInt32LE, h8, h4]; rfl
    · simp [pluggedDecode, readUInt32LE, h8, h4]; rfl

/-- C6 counterexample: a 15-byte AudioData body (length ≥ 12, neither
12+1 nor 12+4) does not yield PCM samples — the `Int16Array` constructor
throws on the odd 3-byte tail — contradicting the claim that every other
length ≥ 12 yields raw int16 samples. -/
theorem audioData_odd_tail_throws :
    12 ≤ (List.replicate 15 (0 : Nat)).length ∧
    (List.replicate 15 (0 : Nat)).length ≠ 13 ∧
    (List.replicate 15 (0 : Nat)).length ≠ 16 ∧
    audioDataDecode (List.replicate 15 (0 : Nat)) =
      Except.error NodeError.outOfRange := by
  exact ⟨by decide, by decide, by decide, rfl⟩

/-- C6 (amended): for a body of length ≥ 12, AudioData reads
`decodeType`, `volume` and `audioType` from the first 12 bytes; a body of
length 12+1 yields a `command`, 12+4 yields a `volumeDuration`, and any
other length whose remainder past 12 is even yields the remaining bytes
as int16 PCM samples — an odd remainder of 3 or more throws a range
error instead. -/
theorem audioDataDecode_behaviour (data : List Nat) (h : 12 ≤ data.length) :
    audioDataDecode data =
      (if data.length = 13 then
        Except.ok { decodeType := le32At data 0, volumeBits := le32At data 4,
                    audioType := le32At data 8, command := some (int8At data 12),
                    volumeDurationBits := none, pcm := none }
      else if data.length = 16 then
        Except.ok { decodeType := le32At data 0, volumeBits := le32At data 4,
                    audioType := le32At data 8, command := none,
                    volumeDurationBits := some (le32At data 12), pcm := none }
      else if (data.length - 12) % 2 = 0 then
        Except.ok { decodeType := le32At data 0, volumeBits := le32At data 4,
                    audioType := le32At data 8, command := none,
                    volumeDurationBits := none,
                    pcm := some (int16PairsLE (data.drop 12)) }
      else Except.error NodeError.outOfRange) := by
  have h0 : 0 + 4 ≤ data.length := by omega
  have h4 : 4 + 4 ≤ data.length := by omega
  have h8 : 8 + 4 ≤ data.length := by omega
  by_cases h13 : data.length = 13
  · have ha : data.length - 12 = 1 := by omega
    have hr : 12 + 1 ≤ data.length := by omega
    simp [audioDataDecode, readUInt32LE, readInt8, h0, h4, h8, ha, hr, h13]; rfl
  · by_cases h16 : data.length = 16
    · have ha : data.length - 12 = 4 := by omega
      have hr : 12 + 4 ≤ data.length := by omega
      simp [audioDataDecode, readUInt32LE, h0, h4, h8, ha, hr, h16]; rfl
    · have ha1 : data.length - 12 ≠ 1 := by omega
      have ha4 : data.length - 12 ≠ 4 := by omega
      by_cases hev : (data.length - 12) % 2 = 0
      · simp [audioDataDecode, readUInt32LE, h0, h4, h8, ha1, ha4, h13, h16,
          hev]; rfl
      · simp [audioDataDecode, readUInt32LE, h0, h4, h8, ha1, ha4, h13, h16,
          hev]; rfl

/-- Witness for C6 (amended) at a concrete 14-byte body. -/
theorem audioDataDecode_behaviour_witness :
    audioDataDecode (List.replicate 14 (255 : Nat)) =
      (if (List.replicate 14 (255 : Nat)).length = 13 then
        Except.ok { decodeType := le32At (List.replicate 14 (255 : Nat)) 0,
                    volumeBits := le32At (List.replicate 14 (255 : Nat)) 4,
                    audioType := le32At (List.replicate 14 (255 : Nat)) 8,
                    command := some (int8At (List.replicate 14 (255 : Nat)) 12),
                    volumeDurationBits := none, pcm := none }
      else if (List.replicate 14 (255 : Nat)).length = 16 then
        Except.ok { decodeType := le32At (List.replicate 14 (255 : Nat)) 0,
                    volumeBits := le32At (List.replicate 14 (255 : Nat)) 4,
                    audioType := le32At (List.replicate 14 (255 : Nat)) 8,
                    command := none,
                    volumeDurationBits :=
                      some (le32At (List.replicate 14 (255 : Nat)) 12),
                    pcm := none }
      else if ((List.replicate 14 (255 : Nat)).length - 12) % 2 = 0 then
        Except.ok { decodeType := le32At (List.replicate 14 (255 : Nat)) 0,
                    volumeBits := le32At (List.replicate 14 (255 : Nat)) 4,
                    audioType := le32At (List.replicate 14 (255 : Nat)) 8,
                    command := none, volumeDurationBits := none,
                    pcm := some (int16PairsLE
                      ((List.replicate 14 (255 : Nat)).drop 12)) }
      else Except.error NodeError.outOfRange) :=
  audioDataDecode_behaviour (List.replicate 14 (255 : Nat)) (by decide)

/-- The clamped fixed-point coordinate always lands in [0, 10000]. -/
theorem touchFixedPoint_bounds (v : ℚ) :
    0 ≤ touchFixedPoint v ∧ touchFixedPoint v ≤ 10000 := by
  unfold touchFixedPoint clamp
  constructor
  · exact Int.le_floor.mpr (by push_cast; exact le_max_left 0 (min (10000 * v) 10000))
  · have hq : max (0 : ℚ) (min (10000 * v) 10000) ≤ 10000 :=
      max_le (by norm_num) (min_le_right _ _)
    have h1 : (10000 : ℚ) = ((10000 : ℤ) : ℚ) := by norm_cast
    calc Int.floor (max (0 : ℚ) (min (10000 * v) 10000))
        ≤ Int.floor ((10000 : ℤ) : ℚ) := Int.floor_mono (h1 ▸ hq)
      _ = 10000 := Int.floor_intCast 10000

/-- Below the clamp range the encoded coordinate is the lower boundary. -/
theorem touchFixedPoint_clamp_low (x : ℚ) (hx : x < 0) : touchFixedPoint x = 0 := by
  unfold touchFixedPoint clamp
  have h1 : min (10000 * x) 10000 = 10000 * x := min_eq_left (by nlinarith)
  have h2 : max (0 : ℚ) (10000 * x) = 0 := max_eq_left (by nlinarith)
  rw [h1, h2, Int.floor_zero]

/-- Above the clamp range the encoded coordinate is the upper boundary. -/
theorem touchFixedPoint_clamp_high (x : ℚ) (hx : 1 < x) :
    touchFixedPoint x = 10000 := by
  unfold touchFixedPoint clamp
  have h1 : min (10000 * x) 10000 = 10000 := min_eq_right (by nlinarith)
  have h2 : max (0 : ℚ) (10000 : ℚ) = 10000 := max_eq_right (by norm_num)
  have h3 : (10000 : ℚ) = ((10000 : ℤ) : ℚ) := by norm_cast
  rw [h1, h2, h3, Int.floor_intCast]

/-- C7: a Touch coordinate is encoded as a fixed-point integer scaled by
10000 and clamped to [0, 10000]; for any coordinate outside [0, 1] the
encoded value is exactly the boundary 0 or 10000 (0 below, 10000 above),
never a value outside the range, and the payload is still built — four
little-endian words, 16 bytes — the input is never rejected. -/
theorem sendTouch_clamped (x y : ℚ) (action : Nat) (hx : x < 0 ∨ 1 < x) :
    0 ≤ touchFixedPoint x ∧ touchFixedPoint x ≤ 10000 ∧
    (touchFixedPoint x = 0 ∨ touchFixedPoint x = 10000) ∧
    (touchFixedPoint x = if x < 0 then 0 else 10000) ∧
    0 ≤ touchFixedPoint y ∧ touchFixedPoint y ≤ 10000 ∧
    (sendTouchPayload x y action).length = 16 := by
  obtain ⟨hb1, hb2⟩ := touchFixedPoint_bounds x
  obtain ⟨hc1, hc2⟩ := touchFixedPoint_bounds y
  have hlen : (sendTouchPayload x y action).length = 16 := by
    simp [sendTouchPayload, uint32le]
  rcases hx with h | h
  · exact ⟨hb1, hb2, Or.inl (touchFixedPoint_clamp_low x h),
      by rw [if_pos h]; exact touchFixedPoint_clamp_low x h, hc1, hc2, hlen⟩
  · have hnx : ¬ x < 0 := by linarith
    exact ⟨hb1, hb2, Or.inr (touchFixedPoint_clamp_high x h),
      by rw [if_neg hnx]; exact touchFixedPoint_clamp_high x h, hc1, hc2, hlen⟩

/-- Witness for C7 at x = 3/2 (out of range), y = 1/2 (in range). -/
theorem sendTouch_clamped_witness :
    0 ≤ touchFixedPoint (3 / 2 : ℚ) ∧ touchFixedPoint (3 / 2 : ℚ) ≤ 10000 ∧
    (touchFixedPoint (3 / 2 : ℚ) = 0 ∨ touchFixedPoint (3 / 2 : ℚ) = 10000) ∧
    (touchFixedPoint (3 / 2 : ℚ) = if (3 / 2 : ℚ) < 0 then 0 else 10000) ∧
    0 ≤ touchFixedPoint (1 / 2 : ℚ) ∧ touchFixedPoint (1 / 2 : ℚ) ≤ 10000 ∧
    (sendTouchPayload (3 / 2) (1 / 2) 14).length = 16 :=
  sendTouch_clamped (3 / 2) (1 / 2) 14 (Or.inr (by norm_num))

/-- `initialise` on an unopened device: cleanup, then `deviceNotOpened`. -/
theorem initialise_not_opened (s : DriverState) (device : USBDevice)
    (hs : s.device = none) (hop : device.opened = false) :
    initialise s device = (cleanedState s, some InitError.deviceNotOpened) := by
  simp [initialise, hs, hop, close, cleanedState]

/-- `initialise` on a device with no configuration descriptor. -/
theorem initialise_no_configuration (s : DriverState) (device : USBDevice)
    (hs : s.device = none) (hop : device.opened = true)
    (hcfg : device.configuration = none) :
    initialise s device = (cleanedState s, some InitError.noConfiguration) := by
  simp [initialise, hs, hop, hcfg, close, cleanedState]

/-- `initialise` on a configuration with no interfaces: the destructuring
`TypeError`, still preceded by cleanup. -/
theorem initialise_no_interface (s : DriverState) (device : USBDevice)
    (cfg : USBConfiguration) (hs : s.device = none) (hop : device.opened = true)
    (hcfg : device.configuration = some cfg)
    (hintf : cfg.interfaces.head? = none) :
    initialise s device = (cleanedState s, some InitError.noInterfaceTypeError) := by
  simp [initialise, hs, hop, hcfg, hintf, close, cleanedState]

/-- `initialise` with no IN endpoint: `noInEndpoint` is raised whether or
not an OUT endpoint exists (IN is checked first). -/
theorem initialise_no_in_endpoint (s : DriverState) (device : USBDevice)
    (cfg : USBConfiguration) (intf : USBInterface) (hs : s.device = none)
    (hop : device.opened = true) (hcfg : device.configuration = some cfg)
    (hintf : cfg.interfaces.head? = some intf)
    (hin : intf.endpoints.find? (fun e => e.direction = EPDirection.dirIn) = none) :
    initialise s device = (cleanedState s, some InitError.noInEndpoint) := by
  simp [initialise, hs, hop, hcfg, hintf, hin, close, cleanedState]

/-- `initialise` with an IN endpoint but no OUT endpoint. -/
theorem initialise_no_out_endpoint (s : DriverState) (device : USBDevice)
    (cfg : USBConfiguration) (intf : USBInterface) (inEndpoint : USBEndpoint)
    (hs : s.device = none) (hop : device.opened = true)
    (hcfg : device.configuration = some cfg)
    (hintf : cfg.interfaces.head? = some intf)
    (hin : intf.endpoints.find? (fun e => e.direction = EPDirection.dirIn) =
      some inEndpoint)
    (hout : intf.endpoints.find? (fun e => e.direction = EPDirection.dirOut) = none) :
    initialise s device = (cleanedState s, some InitError.noOutEndpoint) := by
  simp [initialise, hs, hop, hcfg, hintf, hin, hout, close, cleanedState]

/-- `initialise` when everything is present: stores both endpoints. -/
theorem initialise_success (s : DriverState) (device : USBDevice)
    (cfg : USBConfiguration) (intf : USBInterface)
    (inEndpoint outEndpoint : USBEndpoint) (hs : s.device = none)
    (hop : device.opened = true) (hcfg : device.configuration = some cfg)
    (hintf : cfg.interfaces.head? = some intf)
    (hin : intf.endpoints.find? (fun e => e.direction = EPDirection.dirIn) =
      some inEndpoint)
    (hout : intf.endpoints.find? (fun e => e.direction = EPDirection.dirOut) =
      some outEndpoint) :
    initialise s device =
      ({ s with
          device := some device
          inEP := some inEndpoint.endpointNumber
          outEP := some outEndpoint.endpointNumber }, none) := by
  simp [initialise, hs, hop, hcfg, hintf, hin, hout]

/-- C8: on a fresh session, every failing `initialise` — device not open,
no configuration, missing IN endpoint, missing OUT endpoint — raises the
matching `DriverStateError` (the spec's `DeviceStateError`) after a
cleanup equivalent to `close()`: the resulting state retains no device,
endpoint or interface reference and a subsequent `close()` is a safe
no-op.  With both endpoints missing the missing-IN error wins. -/
theorem initialise_failure_behaviour (s : DriverState) (device : USBDevice)
    (hs : s.device = none) :
    (∀ st e, initialise s device = (st, some e) →
       st = cleanedState s ∧ st.device = none ∧ st.inEP = none ∧
       st.outEP = none ∧ close st = st) ∧
    (device.opened = false →
       initialise s device = (cleanedState s, some InitError.deviceNotOpened)) ∧
    (device.opened = true → device.configuration = none →
       initialise s device = (cleanedState s, some InitError.noConfiguration)) ∧
    (∀ cfg intf, device.opened = true → device.configuration = some cfg →
       cfg.interfaces.head? = some intf →
       (intf.endpoints.find? (fun e => e.direction = EPDirection.dirIn) = none →
          initialise s device = (cleanedState s, some InitError.noInEndpoint)) ∧
       (∀ inEndpoint,
          intf.endpoints.find? (fun e => e.direction = EPDirection.dirIn) =
            some inEndpoint →
          intf.endpoints.find? (fun e => e.direction = EPDirection.dirOut) = none →
          initialise s device = (cleanedState s, some InitError.noOutEndpoint))) ∧
    (InitError.deviceNotOpened.isDriverStateError = true ∧
     InitError.noConfiguration.isDriverStateError = true ∧
     InitError.noInEndpoint.isDriverStateError = true ∧
     InitError.noOutEndpoint.isDriverStateError = true) := by
  refine ⟨?_, initialise_not_opened s device hs,
    initialise_no_configuration s device hs, ?_, by decide⟩
  · intro st e hinit
    have hcl : st = cleanedState s := by
      cases hop : device.opened with
      | false =>
        rw [initialise_not_opened s device hs hop] at hinit
        injection hinit with h1 h2
        exact h1.symm
      | true =>
        cases hcfg : device.configuration with
        | none =>
          rw [initialise_no_configuration s device hs hop hcfg] at hinit
          injection hinit with h1 h2
          exact h1.symm
        | some cfg =>
          cases hintf : cfg.interfaces.head? with
          | none =>
            rw [initialise_no_interface s device cfg hs hop hcfg hintf] at hinit
            injection hinit with h1 h2
            exact h1.symm
          | some intf =>
            cases hin : intf.endpoints.find?
                (fun e => e.direction = EPDirection.dirIn) with
            | none =>
              rw [initialise_no_in_endpoint s device cfg intf hs hop hcfg hintf
                hin] at hinit
              injection hinit with h1 h2
              exact h1.symm
            | some inEndpoint =>
              cases hout : intf.endpoints.find?
                  (fun e => e.direction = EPDirection.dirOut) with
              | none =>
                rw [initialise_no_out_endpoint s device cfg intf inEndpoint hs
                  hop hcfg hintf hin hout] at hinit
                injection hinit with h1 h2
                exact h1.symm
              | some outEndpoint =>
                rw [initialise_success s device cfg intf inEndpoint outEndpoint
                  hs hop hcfg hintf hin hout] at hinit
                injection hinit with h1 h2
                cases h2
    subst hcl
    exact ⟨rfl, rfl, rfl, rfl, by simp [close, cleanedState]⟩
  · intro cfg intf hop hcfg hintf
    exact ⟨initialise_no_in_endpoint s device cfg intf hs hop hcfg hintf,
      fun inEndpoint hin hout =>
        initialise_no_out_endpoint s device cfg intf inEndpoint hs hop hcfg
          hintf hin hout⟩

/-- Witness for C8 on a fresh session and an opened device whose single
interface has no endpoints at all (so both IN and OUT are missing). -/
theorem initialise_failure_behaviour_witness :
    (∀ st e, initialise DongleDriver.initialState noEndpointDevice = (st, some e) →
       st = cleanedState DongleDriver.initialState ∧ st.device = none ∧
       st.inEP = none ∧ st.outEP = none ∧ close st = st) ∧
    (noEndpointDevice.opened = false →
       initialise DongleDriver.initialState noEndpointDevice =
         (cleanedState DongleDriver.initialState,
          some InitError.deviceNotOpened)) ∧
    (noEndpointDevice.opened = true → noEndpointDevice.configuration = none →
       initialise DongleDriver.initialState noEndpointDevice =
         (cleanedState DongleDriver.initialState,
          some InitError.noConfiguration)) ∧
    (∀ cfg intf, noEndpointDevice.opened = true →
       noEndpointDevice.configuration = some cfg →
       cfg.interfaces.head? = some intf →
       (intf.endpoints.find? (fun e => e.direction = EPDirection.dirIn) = none →
          initialise DongleDriver.initialState noEndpointDevice =
            (cleanedState DongleDriver.initialState,
             some InitError.noInEndpoint)) ∧
       (∀ inEndpoint,
          intf.endpoints.find? (fun e => e.direction = EPDirection.dirIn) =
            some inEndpoint →
          intf.endpoints.find? (fun e => e.direction = EPDirection.dirOut) = none →
          initialise DongleDriver.initialState noEndpointDevice =
            (cleanedState DongleDriver.initialState,
             some InitError.noOutEndpoint))) ∧
    (InitError.deviceNotOpened.isDriverStateError = true ∧
     InitError.noConfiguration.isDriverStateError = true ∧
     InitError.noInEndpoint.isDriverStateError = true ∧
     InitError.noOutEndpoint.isDriverStateError = true) :=
  initialise_failure_behaviour DongleDriver.initialState noEndpointDevice rfl

/-- C10: a `SendString` whose content exceeds 16 characters only logs the
`string too long` error; the message is still built and its `SendFile`
payload carries the full, untruncated content bytes after the
NUL-terminated file name and the two length words. -/
theorem sendString_overlong (content file : String) (h : 16 < content.length) :
    (sendStringMsg content file).loggedTooLong = true ∧
    (sendStringMsg content file).payload =
      uint32le (asciiBytes file ++ [0]).length ++ (asciiBytes file ++ [0]) ++
        uint32le (asciiBytes content).length ++ asciiBytes content ∧
    asciiBytes content <:+ (sendStringMsg content file).payload ∧
    (asciiBytes content).length = content.length := by
  refine ⟨?_, ?_, ?_, ?_⟩
  · exact decide_eq_true h
  · simp [sendStringMsg, sendFilePayload, getFileName]
  · have hp : (sendStringMsg content file).payload =
        (uint32le (getFileName file).length ++ getFileName file ++
          uint32le (asciiBytes content).length) ++ asciiBytes content := by
      simp [sendStringMsg, sendFilePayload, List.append_assoc]
    rw [hp]
    exact List.suffix_append _ _
  · show (content.data.map _).length = content.length
    rw [List.length_map]
    rfl

/-- Witness for C10 at a 17-character content string. -/
theorem sendString_overlong_witness :
    (sendStringMsg "abcdefghijklmnopq" "/etc/box_name").loggedTooLong = true ∧
    (sendStringMsg "abcdefghijklmnopq" "/etc/box_name").payload =
      uint32le (asciiBytes "/etc/box_name" ++ [0]).length ++
        (asciiBytes "/etc/box_name" ++ [0]) ++
        uint32le (asciiBytes "abcdefghijklmnopq").length ++
        asciiBytes "abcdefghijklmnopq" ∧
    asciiBytes "abcdefghijklmnopq" <:+
      (sendStringMsg "abcdefghijklmnopq" "/etc/box_name").payload ∧
    (asciiBytes "abcdefghijklmnopq").length =
      ("abcdefghijklmnopq" : String).length :=
  sendString_overlong "abcdefghijklmnopq" "/etc/box_name" (by decide)

end OpenHeadUnit
